import Mathlib

/-!
# Verification of the RAK4630 soil-moisture LoRaWAN sensor node sketch

Shallow embedding of `src/cod_umiditate_sol/cod_umiditate_sol.ino`.

Modelling conventions:
* C `long` / `int` arithmetic is modelled on `ℤ`; C truncating integer
  division (`/` on signed integers, rounding toward zero) is `Int.tdiv`.
* `float` sensor values are modelled on `ℚ` (the numeric pipeline of the
  sketch — linear map, comparisons, `* 100` — is exact on the values that
  occur, so rationals are a faithful model).  A possibly-NaN `float`
  reading is `Option ℚ`, `none` standing for NaN.
* A C cast from `float` to a signed integer truncates toward zero; on the
  `ℚ` model this is `ratTrunc`.
* `millis()` timestamps are unsigned 32-bit; the C expression
  `millis() - last` is the wrap-around difference `sub32`.
* The environment (ADC readings, I2C probe results, sensor/radio status)
  is passed in as explicit parameters, since it is external input.
-/

namespace SoilNode

/-! ## Arduino numeric primitives -/

/-- Arduino `map(x, in_min, in_max, out_min, out_max)`:
`(x - in_min) * (out_max - out_min) / (in_max - in_min) + out_min`
on `long`, with C truncating division. -/
def arduinoMap (x inMin inMax outMin outMax : ℤ) : ℤ :=
  Int.tdiv ((x - inMin) * (outMax - outMin)) (inMax - inMin) + outMin

/-- Arduino `constrain(amt, low, high)`:
`(amt)<(low) ? (low) : ((amt)>(high) ? (high) : (amt))`. -/
def constrain (x lo hi : ℤ) : ℤ :=
  if x < lo then lo else if x > hi then hi else x

/-- C cast of a real (`float`) value to a signed integer: truncation
toward zero.  On `ℚ` this is `num.tdiv den`. -/
def ratTrunc (q : ℚ) : ℤ :=
  Int.tdiv q.num q.den

/-- Rounding to the nearest integer (used only to state the spec's
"round(value×100)"; the sketch itself never rounds). -/
def roundRat (q : ℚ) : ℤ :=
  ⌊q + 1/2⌋

/-! ## Byte extraction

For the unsigned 16-bit fields the sketch computes `(v >> 8) & 0xFF` and
`v & 0xFF` on a non-negative value: on `ℕ` these are `v / 256 % 256` and
`v % 256`.  For the signed field it computes the same expressions on an
`int` holding an `int16_t` value: `>> 8` is an arithmetic shift, i.e.
`Int.fdiv · 256`, and `& 0xFF` on a two's-complement integer is
`Int.emod · 256`. -/

/-- `(v >> 8) & 0xFF` on an unsigned value. -/
def u16hi (v : ℕ) : ℕ := v / 256 % 256

/-- `v & 0xFF` on an unsigned value. -/
def u16lo (v : ℕ) : ℕ := v % 256

/-- Arithmetic right shift by 8 of a (two's-complement) signed integer. -/
def sar8 (t : ℤ) : ℤ := Int.fdiv t 256

/-- `t & 0xFF` of a (two's-complement) signed integer (`%` on `ℤ` is
`Int.emod`, the non-negative remainder, which is what the mask picks
out of the two's-complement representation). -/
def and0xFF (t : ℤ) : ℤ := t % 256

/-- The unsigned 16-bit pattern holding the two's-complement
representation of `t` (how an `int16_t` value sits on the wire). -/
def toTwos16 (t : ℤ) : ℕ := (t % 65536).toNat

/-- Reading a 16-bit pattern back as a signed (two's-complement) value. -/
def fromTwos16 (n : ℕ) : ℤ := if 32768 ≤ n then (n : ℤ) - 65536 else n

/-! ## Sensor pipeline of `send_lora_frame` -/

/-- Soil-sensor sampling loop:
`for (int i = 0; i < 5; i++) { soilSum += analogRead(SOIL_SENSOR_PIN); delay(100); }`
after `n` iterations, where `reads i` is the value returned by the
`i`-th `analogRead`. -/
def soilSumLoop (reads : ℕ → ℕ) : ℕ → ℕ
  | 0 => 0
  | n + 1 => soilSumLoop reads n + reads n

/-- `int soilRaw = soilSum / 5;` — average of the five readings
(non-negative `int` division = `ℕ` division). -/
def soilRawOf (reads : ℕ → ℕ) : ℕ :=
  soilSumLoop reads 5 / 5

/-- `float soilMoisture = map(soilRaw, 3000, 1300, 0, 100);
soilMoisture = constrain(soilMoisture, 0, 100);`
as a function of the averaged raw reading (`map` returns `long`, so the
value is an integer; the `float` holds it exactly). -/
def soilPercentOf (raw : ℤ) : ℤ :=
  constrain (arduinoMap raw 3000 1300 0 100) 0 100

/-- The `soilMoisture` value computed by `send_lora_frame`. -/
def soilMoistureOf (reads : ℕ → ℕ) : ℤ :=
  soilPercentOf (soilRawOf reads)

/-- Temperature acquisition: `float objectTemp = 25.0;` then, only when
`mlxSensorAvailable`, `temp = mlx.getObjectTemp();
if (!isnan(temp) && temp > -40 && temp < 85) objectTemp = temp;`.
`reading = none` models a NaN reading. -/
def objectTempOf (mlxAvailable : Bool) (reading : Option ℚ) : ℚ :=
  if mlxAvailable then
    match reading with
    | some temp => if -40 < temp ∧ temp < 85 then temp else 25
    | none => 25
  else 25

/-- `uint16_t soilValue = (uint16_t)(soilMoisture * 100);` —
`soilMoisture` is an integer in [0,100], so the product is exact and
in `uint16_t` range. -/
def soilValueOf (reads : ℕ → ℕ) : ℕ :=
  (soilMoistureOf reads * 100).toNat

/-- `int16_t tempValue = (int16_t)(objectTemp * 100);` — truncation
toward zero (the value is always within `int16_t` range, see below). -/
def tempValueOf (mlxAvailable : Bool) (reading : Option ℚ) : ℤ :=
  ratTrunc (objectTempOf mlxAvailable reading * 100)

/-- `uint16_t battValue = (uint16_t)(batteryLevel * 100);` — truncation,
reduced to the 16-bit pattern. -/
def battValueOf (batteryLevel : ℚ) : ℕ :=
  (ratTrunc (batteryLevel * 100) % 65536).toNat

/-! ## The transmitted frame -/

/-- `lmh_send`'s second argument. -/
inductive MsgType where
  | unconfirmed
  | confirmed
  deriving DecidableEq, Repr

/-- The uplink handed to `lmh_send`: byte buffer, port, and message
type.  (`lmh_app_data_t m_lora_app_data = {data, 6, 2, 0, 0}` — buffer,
size, port, rssi, snr; size is the buffer's length, rssi/snr are unused
on uplink.) -/
structure Frame where
  bytes : List ℕ
  port : ℕ
  msg : MsgType
  deriving DecidableEq, Repr

/-- The frame built and transmitted by `send_lora_frame`, as a function
of the environment: the five ADC readings, the `mlxSensorAvailable`
flag, the (possibly NaN) temperature reading, and the battery voltage
returned by `BoardGetBatteryLevel()`.

```
data[0] = (soilValue >> 8) & 0xFF;  data[1] = soilValue & 0xFF;
data[2] = (tempValue >> 8) & 0xFF;  data[3] = tempValue & 0xFF;
data[4] = (battValue >> 8) & 0xFF;  data[5] = battValue & 0xFF;
lmh_app_data_t m_lora_app_data = {data, 6, 2, 0, 0};
lmh_send(&m_lora_app_data, LMH_UNCONFIRMED_MSG);
```
(For `data[2]`, `data[3]` the `int16_t` is promoted to `int`, shifted
arithmetically and masked.) -/
def send_lora_frame (reads : ℕ → ℕ) (mlxAvailable : Bool)
    (reading : Option ℚ) (batteryLevel : ℚ) : Frame :=
  let soilValue := soilValueOf reads
  let tempValue := tempValueOf mlxAvailable reading
  let battValue := battValueOf batteryLevel
  { bytes := [u16hi soilValue, u16lo soilValue,
              (and0xFF (sar8 tempValue)).toNat, (and0xFF tempValue).toNat,
              u16hi battValue, u16lo battValue],
    port := 2,
    msg := MsgType.unconfirmed }

/-! ## Timers and the main-loop / handler state machine -/

/-- `const unsigned long SENSOR_INTERVAL = 60000;` -/
def SENSOR_INTERVAL : ℕ := 60000

/-- `const unsigned long JOIN_RETRY_INTERVAL = 120000;` -/
def JOIN_RETRY_INTERVAL : ℕ := 120000

/-- Unsigned 32-bit difference `a - b` (`unsigned long` arithmetic used
for all `millis()` comparisons). -/
def sub32 (a b : ℕ) : ℕ :=
  (a + 2 ^ 32 - b % 2 ^ 32) % 2 ^ 32

/-- The sketch's global mutable state touched by `loop` and the LoRaWAN
callbacks. -/
structure NodeState where
  lastSensorRead : ℕ
  lastJoinAttempt : ℕ
  joinInProgress : Bool
  joinAttempts : ℕ
  deriving DecidableEq, Repr

/-- Externally visible actions a step can perform on the radio stack. -/
inductive Action where
  | join
  | send
  deriving DecidableEq, Repr

/-- `lorawan_join_failed_handler`: prints diagnostics, sets
`joinInProgress = false`, and issues no radio call
("Don't retry immediately, let main loop handle retry timing"). -/
def lorawan_join_failed_handler (s : NodeState) : NodeState × List Action :=
  ({ s with joinInProgress := false }, [])

/-- `lorawan_has_joined_handler` at time `now = millis()`:
`joinInProgress = false; lmh_class_request(CLASS_A);
lastSensorRead = millis() - SENSOR_INTERVAL;`. -/
def lorawan_has_joined_handler (now : ℕ) (s : NodeState) : NodeState × List Action :=
  ({ s with joinInProgress := false,
            lastSensorRead := sub32 now SENSOR_INTERVAL }, [])

/-- One iteration of `loop()` at time `now = millis()`, where `joined`
is what `lmh_join_status_get()` reports.  (The status-print branch only
writes to `Serial` and a local static timestamp, and is omitted.) -/
def loopStep (joined : Bool) (now : ℕ) (s : NodeState) : NodeState × List Action :=
  let p1 : NodeState × List Action :=
    if joined = false ∧ s.joinInProgress = false ∧
        sub32 now s.lastJoinAttempt > JOIN_RETRY_INTERVAL then
      ({ s with joinAttempts := s.joinAttempts + 1,
                joinInProgress := true,
                lastJoinAttempt := now }, [Action.join])
    else (s, [])
  let p2 : NodeState × List Action :=
    if joined = true ∧ sub32 now p1.1.lastSensorRead ≥ SENSOR_INTERVAL then
      ({ p1.1 with lastSensorRead := now }, [Action.send])
    else (p1.1, [])
  (p2.1, p1.2 ++ p2.2)

/-! ## `setup()`: MLX probing and the init-failure halts -/

/-- One round of the inner probe loop of `setup`:
`uint8_t addresses[] = {0x3A, 0x3B}; for (int addr = 0; addr < 2; addr++) …`.
`probe attempt address` tells whether
`mlx.begin(addresses[addr], Wire, st) && st == SENSOR_SUCCESS` holds for
that attempt.  Returns the (attempt, address) pairs probed this round
and whether one succeeded (the inner loop `break`s on success). -/
def probeRound (probe : ℕ → ℕ → Bool) (attempt : ℕ) : List (ℕ × ℕ) × Bool :=
  if probe attempt 0x3A then ([(attempt, 0x3A)], true)
  else if probe attempt 0x3B then ([(attempt, 0x3A), (attempt, 0x3B)], true)
  else ([(attempt, 0x3A), (attempt, 0x3B)], false)

/-- The outer retry loop `for (int attempt = 0; attempt < 3; attempt++)`
starting at round `attempt` with `fuel` rounds left; `if (sensorSuccess)
break;` stops at the first successful round. -/
def probeFrom (probe : ℕ → ℕ → Bool) (attempt fuel : ℕ) : List (ℕ × ℕ) × Bool :=
  match fuel with
  | 0 => ([], false)
  | fuel + 1 =>
    let (probed, ok) := probeRound probe attempt
    if ok then (probed, true)
    else
      let (rest, ok2) := probeFrom probe (attempt + 1) fuel
      (probed ++ rest, ok2)

/-- The whole probing phase of `setup`: the probes actually performed,
in order, and the resulting `mlxSensorAvailable` flag. -/
def runProbes (probe : ℕ → ℕ → Bool) : List (ℕ × ℕ) × Bool :=
  probeFrom probe 0 3

/-- `mlxSensorAvailable` after `setup`'s probing phase. -/
def mlxSensorAvailableOf (probe : ℕ → ℕ → Bool) : Bool :=
  (runProbes probe).2

/-- The full probe schedule `(attempt, address)` the nested loops would
visit if nothing succeeded. -/
def probeSchedule : List (ℕ × ℕ) :=
  [(0, 0x3A), (0, 0x3B), (1, 0x3A), (1, 0x3B), (2, 0x3A), (2, 0x3B)]

/-- `lmh_init`'s result type (`lmh_error_status`). -/
inductive LmhErrorStatus where
  | LMH_SUCCESS
  | LMH_ERROR
  | LMH_BUSY
  deriving DecidableEq, Repr

/-- Outcome of `setup` past the sensor probing: either control is stuck
forever in one of the two `while(1)` diagnostic loops (which have no
`break` or `return`, so `loop()` is never entered), printing the given
line each iteration, or `setup` completes and hands the initial state to
`loop()`.  `loraInitResult` is `lora_rak4630_init()`'s return code,
`stackResult` is `lmh_init(...)`'s status, `now` is `millis()` at
`lastJoinAttempt = millis();`. -/
inductive SetupOutcome where
  | haltedForever (repeatedLine : String)
  | proceed (s : NodeState) (startupActions : List Action)
  deriving DecidableEq, Repr

/-- The radio/stack initialization and join kick-off part of `setup`:

```
int loraInitResult = lora_rak4630_init();
if (loraInitResult == 0) { … } else { … while(1) { println("   Halted due to LoRa hardware failure"); delay(10000); } }
lmh_error_status stackResult = lmh_init(…);
if (stackResult == LMH_SUCCESS) { … } else { … while(1) { println("   Halted due to LoRaWAN stack failure"); delay(10000); } }
…
joinInProgress = true; joinAttempts = 1; lastJoinAttempt = millis();
lmh_join();
```

`lastSensorRead` keeps its initializer `0`. -/
def setupRadio (loraInitResult : ℤ) (stackResult : LmhErrorStatus)
    (now : ℕ) : SetupOutcome :=
  if loraInitResult ≠ 0 then
    SetupOutcome.haltedForever "   Halted due to LoRa hardware failure"
  else if stackResult ≠ LmhErrorStatus.LMH_SUCCESS then
    SetupOutcome.haltedForever "   Halted due to LoRaWAN stack failure"
  else
    SetupOutcome.proceed
      { lastSensorRead := 0, lastJoinAttempt := now,
        joinInProgress := true, joinAttempts := 1 }
      [Action.join]

/-- Whether a `setup` outcome ever reaches `loop()`. -/
def reachesLoop : SetupOutcome → Bool
  | SetupOutcome.haltedForever _ => false
  | SetupOutcome.proceed _ _ => true

/-! ## Helper lemmas -/

lemma ratTrunc_eq_floor (q : ℚ) (h : 0 ≤ q) : ratTrunc q = ⌊q⌋ := by
  unfold ratTrunc
  rw [Int.tdiv_eq_ediv (Rat.num_nonneg.mpr h) (Int.natCast_nonneg _)]
  conv_rhs => rw [← Rat.num_div_den q]
  rw [Rat.floor_intCast_div_natCast]

lemma ratTrunc_eq_ceil (q : ℚ) (h : q < 0) : ratTrunc q = ⌈q⌉ := by
  unfold ratTrunc
  have hnum : q.num ≤ 0 := by
    by_contra hc
    push_neg at hc
    exact absurd (Rat.num_nonneg.mp hc.le) (not_le.mpr h)
  have h1 : q.num.tdiv q.den = -((-q.num).tdiv q.den) := by
    rw [Int.neg_tdiv, neg_neg]
  rw [h1, Int.tdiv_eq_ediv (by omega) (Int.natCast_nonneg _)]
  have h2 : ((-q.num : ℤ) : ℚ) / ((q.den : ℕ) : ℚ) = -q := by
    push_cast
    rw [neg_div, Rat.num_div_den]
  have h3 : ⌊-q⌋ = -q.num / (q.den : ℤ) := by
    rw [← h2, Rat.floor_intCast_div_natCast]
  have h4 : ⌊-q⌋ = -⌈q⌉ := Int.floor_neg
  omega

lemma roundRat_intCast (k : ℤ) : roundRat (k : ℚ) = k := by
  unfold roundRat
  rw [Int.floor_eq_iff]
  constructor
  · linarith
  · linarith

lemma objectTempOf_bounds (a : Bool) (r : Option ℚ) :
    -40 < objectTempOf a r ∧ objectTempOf a r < 85 := by
  cases a with
  | false => simp only [objectTempOf]; norm_num
  | true =>
    cases r with
    | none => simp only [objectTempOf]; norm_num
    | some t =>
      simp only [objectTempOf, if_true]
      split_ifs with h
      · exact ⟨h.1, h.2⟩
      · norm_num

lemma tempValueOf_bounds (a : Bool) (r : Option ℚ) :
    -4000 < tempValueOf a r ∧ tempValueOf a r < 8500 := by
  obtain ⟨h1, h2⟩ := objectTempOf_bounds a r
  unfold tempValueOf
  set q := objectTempOf a r * 100 with hq
  have hql : (-4000 : ℚ) < q := by rw [hq]; linarith
  have hqu : q < 8500 := by rw [hq]; linarith
  by_cases hneg : q < 0
  · rw [ratTrunc_eq_ceil _ hneg]
    have hc1 : (-4000 : ℤ) < ⌈q⌉ := Int.lt_ceil.mpr (by push_cast; linarith)
    have hc2 : ⌈q⌉ ≤ 0 := Int.ceil_le.mpr (by push_cast; linarith)
    omega
  · push_neg at hneg
    rw [ratTrunc_eq_floor _ hneg]
    have hf1 : (0 : ℤ) ≤ ⌊q⌋ := Int.floor_nonneg.mpr hneg
    have hf2 : ⌊q⌋ < 8500 := Int.floor_lt.mpr (by push_cast; linarith)
    omega

lemma soilPercentOf_bounds (raw : ℤ) :
    0 ≤ soilPercentOf raw ∧ soilPercentOf raw ≤ 100 := by
  unfold soilPercentOf constrain
  split_ifs <;> omega

lemma soilMoistureOf_bounds (reads : ℕ → ℕ) :
    0 ≤ soilMoistureOf reads ∧ soilMoistureOf reads ≤ 100 :=
  soilPercentOf_bounds _

lemma arduinoMap_soil (raw : ℤ) :
    arduinoMap raw 3000 1300 0 100 = Int.tdiv ((raw - 3000) * 100) (-1700) := by
  unfold arduinoMap
  norm_num

lemma soilPercentOf_dry (raw : ℤ) (h : 3000 ≤ raw) : soilPercentOf raw = 0 := by
  have hmap : arduinoMap raw 3000 1300 0 100 ≤ 0 := by
    rw [arduinoMap_soil, Int.tdiv_neg, Int.tdiv_eq_ediv (by nlinarith) (by norm_num)]
    have h0 : 0 ≤ (raw - 3000) * 100 / 1700 :=
      Int.ediv_nonneg (by nlinarith) (by norm_num)
    omega
  unfold soilPercentOf constrain
  split_ifs <;> omega

lemma soilPercentOf_wet (raw : ℤ) (h : raw ≤ 1300) : soilPercentOf raw = 100 := by
  have hmap : 100 ≤ arduinoMap raw 3000 1300 0 100 := by
    rw [arduinoMap_soil, Int.tdiv_neg]
    have e : (raw - 3000) * 100 = -((3000 - raw) * 100) := by ring
    rw [e, Int.neg_tdiv, neg_neg, Int.tdiv_eq_ediv (by nlinarith) (by norm_num)]
    have h2 : 170000 ≤ (3000 - raw) * 100 := by nlinarith
    omega
  unfold soilPercentOf constrain
  split_ifs <;> omega

lemma soilPercentOf_mid (raw : ℤ) (h1 : 1300 < raw) (h2 : raw < 3000) :
    soilPercentOf raw = Int.tdiv ((3000 - raw) * 100) 1700 := by
  have key : Int.tdiv ((raw - 3000) * 100) (-1700) = (3000 - raw) * 100 / 1700 := by
    rw [Int.tdiv_neg]
    have e : (raw - 3000) * 100 = -((3000 - raw) * 100) := by ring
    rw [e, Int.neg_tdiv, neg_neg, Int.tdiv_eq_ediv (by nlinarith) (by norm_num)]
  have hb1 : 0 ≤ (3000 - raw) * 100 / 1700 :=
    Int.ediv_nonneg (by nlinarith) (by norm_num)
  have hb2 : (3000 - raw) * 100 / 1700 ≤ 100 := by
    have h3 : (3000 - raw) * 100 ≤ 170000 := by nlinarith
    omega
  unfold soilPercentOf constrain
  rw [arduinoMap_soil, key, Int.tdiv_eq_ediv (by nlinarith) (by norm_num)]
  split_ifs <;> omega

lemma soilValueOf_le (reads : ℕ → ℕ) : soilValueOf reads ≤ 10000 := by
  obtain ⟨h1, h2⟩ := soilMoistureOf_bounds reads
  unfold soilValueOf
  omega

lemma battValueOf_lt (b : ℚ) : battValueOf b < 65536 := by
  unfold battValueOf
  omega

lemma toTwos16_lt (t : ℤ) : toTwos16 t < 65536 := by
  unfold toTwos16
  omega

lemma and0xFF_sar8_toNat (t : ℤ) : (and0xFF (sar8 t)).toNat = toTwos16 t / 256 := by
  unfold and0xFF sar8 toTwos16
  rw [Int.fdiv_eq_ediv _ (by norm_num)]
  omega

lemma and0xFF_toNat (t : ℤ) : (and0xFF t).toNat = toTwos16 t % 256 := by
  unfold and0xFF toTwos16
  omega

lemma fromTwos16_toTwos16 (t : ℤ) (h1 : -32768 ≤ t) (h2 : t < 32768) :
    fromTwos16 (toTwos16 t) = t := by
  unfold fromTwos16 toTwos16
  split_ifs <;> omega

lemma send_lora_frame_bytes (reads : ℕ → ℕ) (avail : Bool) (r : Option ℚ)
    (batt : ℚ) :
    (send_lora_frame reads avail r batt).bytes =
      [soilValueOf reads / 256, soilValueOf reads % 256,
       toTwos16 (tempValueOf avail r) / 256,
       toTwos16 (tempValueOf avail r) % 256,
       battValueOf batt / 256, battValueOf batt % 256] := by
  have h1 := soilValueOf_le reads
  have h2 := battValueOf_lt batt
  simp only [send_lora_frame, u16hi, u16lo]
  rw [and0xFF_sar8_toNat, and0xFF_toNat]
  simp only [List.cons.injEq, and_true, true_and]
  exact ⟨by omega, by omega⟩

lemma mlxAvailable_or (probe : ℕ → ℕ → Bool) :
    mlxSensorAvailableOf probe =
      (probe 0 0x3A || probe 0 0x3B || probe 1 0x3A || probe 1 0x3B ||
       probe 2 0x3A || probe 2 0x3B) := by
  by_cases h1 : probe 0 0x3A <;> by_cases h2 : probe 0 0x3B <;>
    by_cases h3 : probe 1 0x3A <;> by_cases h4 : probe 1 0x3B <;>
    by_cases h5 : probe 2 0x3A <;> by_cases h6 : probe 2 0x3B <;>
    simp [mlxSensorAvailableOf, runProbes, probeFrom, probeRound,
      h1, h2, h3, h4, h5, h6]

lemma runProbes_list (probe : ℕ → ℕ → Bool) :
    (runProbes probe).1 =
      probeSchedule.takeWhile (fun p => !probe p.1 p.2) ++
        (probeSchedule.find? (fun p => probe p.1 p.2)).toList := by
  by_cases h1 : probe 0 0x3A <;> by_cases h2 : probe 0 0x3B <;>
    by_cases h3 : probe 1 0x3A <;> by_cases h4 : probe 1 0x3B <;>
    by_cases h5 : probe 2 0x3A <;> by_cases h6 : probe 2 0x3B <;>
    simp [runProbes, probeFrom, probeRound, probeSchedule,
      h1, h2, h3, h4, h5, h6]

/-! ## Claim theorems -/

/-- C1: for every environment, the soil-moisture percentage computed by
`send_lora_frame` lies in [0,100] and the first two payload bytes encode
round(value×100) — which the pipeline produces exactly, the value being
an integer — as an unsigned 16-bit big-endian pair, high byte first. -/
theorem claim_C1 (reads : ℕ → ℕ) (avail : Bool) (r : Option ℚ) (batt : ℚ) :
    0 ≤ (soilMoistureOf reads : ℚ) ∧ (soilMoistureOf reads : ℚ) ≤ 100 ∧
    (roundRat ((soilMoistureOf reads : ℚ) * 100)).toNat < 2 ^ 16 ∧
    (send_lora_frame reads avail r batt).bytes.take 2 =
      [(roundRat ((soilMoistureOf reads : ℚ) * 100)).toNat / 256,
       (roundRat ((soilMoistureOf reads : ℚ) * 100)).toNat % 256] := by
  obtain ⟨h1, h2⟩ := soilMoistureOf_bounds reads
  have hcast : ((soilMoistureOf reads : ℚ) * 100) =
      ((soilMoistureOf reads * 100 : ℤ) : ℚ) := by push_cast; ring
  have hv : (roundRat ((soilMoistureOf reads : ℚ) * 100)).toNat =
      soilValueOf reads := by
    rw [hcast, roundRat_intCast]
    rfl
  refine ⟨by exact_mod_cast h1, by exact_mod_cast h2, ?_, ?_⟩
  · rw [hv]
    have := soilValueOf_le reads
    omega
  · rw [hv, send_lora_frame_bytes]
    rfl

/-- C2: every uplink is a 6-byte payload on port 2, sent unconfirmed,
whose bytes are (in order) the big-endian unsigned 16-bit soil field,
the big-endian two's-complement 16-bit temperature field, and the
big-endian unsigned 16-bit battery field. -/
theorem claim_C2 (reads : ℕ → ℕ) (avail : Bool) (r : Option ℚ) (batt : ℚ) :
    (send_lora_frame reads avail r batt).bytes.length = 6 ∧
    (send_lora_frame reads avail r batt).port = 2 ∧
    (send_lora_frame reads avail r batt).msg = MsgType.unconfirmed ∧
    (∀ x ∈ (send_lora_frame reads avail r batt).bytes, x < 256) ∧
    (send_lora_frame reads avail r batt).bytes.getD 0 0 * 256 +
        (send_lora_frame reads avail r batt).bytes.getD 1 0 =
      soilValueOf reads ∧
    fromTwos16 ((send_lora_frame reads avail r batt).bytes.getD 2 0 * 256 +
        (send_lora_frame reads avail r batt).bytes.getD 3 0) =
      tempValueOf avail r ∧
    (send_lora_frame reads avail r batt).bytes.getD 4 0 * 256 +
        (send_lora_frame reads avail r batt).bytes.getD 5 0 =
      battValueOf batt := by
  have hb := send_lora_frame_bytes reads avail r batt
  have hsoil := soilValueOf_le reads
  have hbatt := battValueOf_lt batt
  have htemp := tempValueOf_bounds avail r
  have ht16 := toTwos16_lt (tempValueOf avail r)
  rw [hb]
  simp only [List.getD_cons_zero, List.getD_cons_succ]
  refine ⟨rfl, rfl, rfl, ?_, by omega, ?_, by omega⟩
  · intro x hx
    simp only [List.mem_cons, List.not_mem_nil, or_false] at hx
    rcases hx with h | h | h | h | h | h <;> subst h <;> omega
  · have he : toTwos16 (tempValueOf avail r) / 256 * 256 +
        toTwos16 (tempValueOf avail r) % 256 =
        toTwos16 (tempValueOf avail r) := by omega
    rw [he, fromTwos16_toTwos16 _ (by omega) (by omega)]

/-- C3: an averaged raw reading at or above the dry point 3000 maps to
0 %, at or below the wet point 1300 maps to 100 %, strictly between is
the (truncated) linear interpolation `(3000 − raw)·100 / 1700`, and the
result is always within [0,100]. -/
theorem claim_C3 (raw : ℤ) :
    (3000 ≤ raw → soilPercentOf raw = 0) ∧
    (raw ≤ 1300 → soilPercentOf raw = 100) ∧
    (1300 < raw → raw < 3000 →
      soilPercentOf raw = Int.tdiv ((3000 - raw) * 100) 1700) ∧
    0 ≤ soilPercentOf raw ∧ soilPercentOf raw ≤ 100 :=
  ⟨soilPercentOf_dry raw, soilPercentOf_wet raw, soilPercentOf_mid raw,
   soilPercentOf_bounds raw⟩

/-- Witness for C3 at raw readings 3200 (dry side), 1000 (wet side) and
2150 (interpolated: 50 %). -/
theorem claim_C3_witness :
    soilPercentOf 3200 = 0 ∧ soilPercentOf 1000 = 100 ∧
    soilPercentOf 2150 = Int.tdiv ((3000 - 2150) * 100) 1700 ∧
    0 ≤ soilPercentOf 2150 ∧ soilPercentOf 2150 ≤ 100 :=
  ⟨(claim_C3 3200).1 (by decide), (claim_C3 1000).2.1 (by decide),
   (claim_C3 2150).2.2.1 (by decide) (by decide),
   (claim_C3 2150).2.2.2⟩

/-- C4: the transmitted object temperature is the fixed default 25 °C
whenever the sensor is unavailable, the reading is NaN, or the reading
is outside the open interval (−40, 85); otherwise it is the reading. -/
theorem claim_C4 (avail : Bool) (r : Option ℚ) :
    ((avail = false ∨ r = none ∨ (∃ t, r = some t ∧ (t ≤ -40 ∨ 85 ≤ t))) →
      objectTempOf avail r = 25) ∧
    (∀ t : ℚ, avail = true → r = some t → -40 < t → t < 85 →
      objectTempOf avail r = t) := by
  constructor
  · rintro (h | h | ⟨t, rfl, ht⟩)
    · subst h
      simp [objectTempOf]
    · subst h
      cases avail <;> simp [objectTempOf]
    · cases avail with
      | false => simp [objectTempOf]
      | true =>
        simp only [objectTempOf, if_true]
        split_ifs with hc
        · rcases ht with ht | ht
          · linarith [hc.1]
          · linarith [hc.2]
        · rfl
  · rintro t ha rfl h1 h2
    subst ha
    simp only [objectTempOf, if_true]
    rw [if_pos ⟨h1, h2⟩]

/-- Witness for C4: a 90 °C reading is replaced by the default, a 20 °C
reading is kept. -/
theorem claim_C4_witness :
    objectTempOf true (some 90) = 25 ∧ objectTempOf true (some 20) = 20 :=
  ⟨(claim_C4 true (some 90)).1
      (Or.inr (Or.inr ⟨90, rfl, Or.inr (by decide)⟩)),
   (claim_C4 true (some 20)).2 20 rfl rfl (by decide) (by decide)⟩

/-- C5: the join-failure handler only clears `joinInProgress` (no radio
call, `lastJoinAttempt` untouched), and a loop iteration issues a join
exactly when the stack reports not joined, no join is in progress, and
more than the 120 s retry interval has elapsed since the last attempt. -/
theorem claim_C5 (s : NodeState) (joined : Bool) (now : ℕ) :
    (lorawan_join_failed_handler s).1.joinInProgress = false ∧
    (lorawan_join_failed_handler s).2 = [] ∧
    (lorawan_join_failed_handler s).1.lastJoinAttempt = s.lastJoinAttempt ∧
    (Action.join ∈ (loopStep joined now s).2 ↔
      joined = false ∧ s.joinInProgress = false ∧
        sub32 now s.lastJoinAttempt > JOIN_RETRY_INTERVAL) := by
  refine ⟨rfl, rfl, rfl, ?_⟩
  simp only [loopStep]
  split_ifs with h1 h2 h2 <;> simp_all

/-- Witness for C5: with no join in progress and 200 s elapsed, the loop
issues a join. -/
theorem claim_C5_witness :
    Action.join ∈ (loopStep false 200000
      { lastSensorRead := 0, lastJoinAttempt := 0,
        joinInProgress := false, joinAttempts := 1 }).2 :=
  (claim_C5 { lastSensorRead := 0, lastJoinAttempt := 0,
              joinInProgress := false, joinAttempts := 1 }
    false 200000).2.2.2.mpr ⟨rfl, rfl, by decide⟩

/-- C6: the join-success handler clears `joinInProgress` and backdates
`lastSensorRead` by the full 60 s interval, so any following loop
iteration (before the timer could wrap) sees the cadence check satisfied
and sends a frame. -/
theorem claim_C6 (s : NodeState) (t : ℕ) :
    (lorawan_has_joined_handler t s).1.joinInProgress = false ∧
    (lorawan_has_joined_handler t s).1.lastSensorRead = sub32 t SENSOR_INTERVAL ∧
    (∀ now : ℕ, t ≤ now → now < t + (2 ^ 32 - SENSOR_INTERVAL) → t < 2 ^ 32 →
      Action.send ∈ (loopStep true now (lorawan_has_joined_handler t s).1).2) := by
  refine ⟨rfl, rfl, ?_⟩
  intro now h1 h2 h3
  unfold SENSOR_INTERVAL at h2
  have hcond : sub32 now (lorawan_has_joined_handler t s).1.lastSensorRead ≥
      SENSOR_INTERVAL := by
    show sub32 now (sub32 t SENSOR_INTERVAL) ≥ SENSOR_INTERVAL
    unfold sub32 SENSOR_INTERVAL
    omega
  simp [loopStep, hcond]

/-- Witness for C6: joining at t = 5000 ms makes the loop at
t = 5100 ms send immediately. -/
theorem claim_C6_witness :
    Action.send ∈ (loopStep true 5100
      (lorawan_has_joined_handler 5000
        { lastSensorRead := 0, lastJoinAttempt := 0,
          joinInProgress := true, joinAttempts := 1 }).1).2 :=
  (claim_C6 { lastSensorRead := 0, lastJoinAttempt := 0,
              joinInProgress := true, joinAttempts := 1 } 5000).2.2
    5100 (by decide) (by decide) (by decide)

/-- C7: a nonzero radio-chip init code, or a non-success stack init
status, leaves `setup` in a forever-halting diagnostic loop (repeating
its log line); `loop()` is reached exactly when both succeed. -/
theorem claim_C7 (loraInitResult : ℤ) (stackResult : LmhErrorStatus) (now : ℕ) :
    (loraInitResult ≠ 0 →
      setupRadio loraInitResult stackResult now =
        SetupOutcome.haltedForever "   Halted due to LoRa hardware failure") ∧
    (loraInitResult = 0 → stackResult ≠ LmhErrorStatus.LMH_SUCCESS →
      setupRadio loraInitResult stackResult now =
        SetupOutcome.haltedForever "   Halted due to LoRaWAN stack failure") ∧
    (reachesLoop (setupRadio loraInitResult stackResult now) = true ↔
      loraInitResult = 0 ∧ stackResult = LmhErrorStatus.LMH_SUCCESS) := by
  refine ⟨?_, ?_, ?_⟩
  · intro h
    rw [setupRadio, if_pos h]
  · intro h1 h2
    rw [setupRadio, if_neg (not_not.mpr h1), if_pos h2]
  · unfold setupRadio
    split_ifs with h1 h2 <;> simp [reachesLoop] <;> tauto

/-- Witness for C7: chip failure code 1 halts, stack error halts, both
successes reach the loop. -/
theorem claim_C7_witness :
    setupRadio 1 LmhErrorStatus.LMH_SUCCESS 0 =
      SetupOutcome.haltedForever "   Halted due to LoRa hardware failure" ∧
    setupRadio 0 LmhErrorStatus.LMH_ERROR 0 =
      SetupOutcome.haltedForever "   Halted due to LoRaWAN stack failure" ∧
    reachesLoop (setupRadio 0 LmhErrorStatus.LMH_SUCCESS 0) = true :=
  ⟨(claim_C7 1 LmhErrorStatus.LMH_SUCCESS 0).1 (by decide),
   (claim_C7 0 LmhErrorStatus.LMH_ERROR 0).2.1 rfl (by decide),
   (claim_C7 0 LmhErrorStatus.LMH_SUCCESS 0).2.2.mpr ⟨rfl, rfl⟩⟩

/-- C8: the averaged raw soil value is the (integer) average of exactly
the five analog readings taken by the sampling loop. -/
theorem claim_C8 (reads : ℕ → ℕ) :
    soilRawOf reads = (reads 0 + reads 1 + reads 2 + reads 3 + reads 4) / 5 := by
  unfold soilRawOf
  congr 1
  simp [soilSumLoop]

/-- C9: the sensor is marked available iff some probe at address 0x3A or
0x3B succeeds within the three retry rounds, and the probes actually
performed are exactly the schedule prefix up to and including the first
success. -/
theorem claim_C9 (probe : ℕ → ℕ → Bool) :
    (mlxSensorAvailableOf probe = true ↔
      ∃ a, a < 3 ∧ (probe a 0x3A = true ∨ probe a 0x3B = true)) ∧
    (runProbes probe).1 =
      probeSchedule.takeWhile (fun p => !probe p.1 p.2) ++
        (probeSchedule.find? (fun p => probe p.1 p.2)).toList := by
  refine ⟨?_, runProbes_list probe⟩
  rw [mlxAvailable_or]
  constructor
  · intro h
    simp only [Bool.or_eq_true] at h
    rcases h with ((((h | h) | h) | h) | h) | h
    exacts [⟨0, by norm_num, Or.inl h⟩, ⟨0, by norm_num, Or.inr h⟩,
            ⟨1, by norm_num, Or.inl h⟩, ⟨1, by norm_num, Or.inr h⟩,
            ⟨2, by norm_num, Or.inl h⟩, ⟨2, by norm_num, Or.inr h⟩]
  · rintro ⟨a, ha, h⟩
    interval_cases a <;> rcases h with h | h <;> simp [h]

/-- Witness for C9: a probe succeeding only at round 0, address 0x3B
marks the sensor available. -/
theorem claim_C9_witness :
    mlxSensorAvailableOf (fun a ad => decide (a = 0 ∧ ad = 0x3B)) = true :=
  (claim_C9 (fun a ad => decide (a = 0 ∧ ad = 0x3B))).1.mpr
    ⟨0, by norm_num, Or.inr (by decide)⟩

/-- C10: in every transmitted payload the decoded unsigned soil field is
at most 10000 hundredths of a percent, and the decoded signed
temperature field lies strictly between −4000 and 8500 hundredths of a
degree. -/
theorem claim_C10 (reads : ℕ → ℕ) (avail : Bool) (r : Option ℚ) (batt : ℚ) :
    (send_lora_frame reads avail r batt).bytes.getD 0 0 * 256 +
        (send_lora_frame reads avail r batt).bytes.getD 1 0 ≤ 10000 ∧
    -4000 < fromTwos16 ((send_lora_frame reads avail r batt).bytes.getD 2 0 * 256 +
        (send_lora_frame reads avail r batt).bytes.getD 3 0) ∧
    fromTwos16 ((send_lora_frame reads avail r batt).bytes.getD 2 0 * 256 +
        (send_lora_frame reads avail r batt).bytes.getD 3 0) < 8500 := by
  have hb := send_lora_frame_bytes reads avail r batt
  have hsoil := soilValueOf_le reads
  have htemp := tempValueOf_bounds avail r
  rw [hb]
  simp only [List.getD_cons_zero, List.getD_cons_succ]
  have he : toTwos16 (tempValueOf avail r) / 256 * 256 +
      toTwos16 (tempValueOf avail r) % 256 =
      toTwos16 (tempValueOf avail r) := by omega
  rw [he, fromTwos16_toTwos16 _ (by omega) (by omega)]
  exact ⟨by omega, htemp.1, htemp.2⟩

end SoilNode
